import Mathlib

/-!
Verification of the DroneChoreography repository: a shallow embedding of the
beat-detection pipeline (`src/music_beat_sync.py`) and of the drone command
queue (`src/drone_control.py`), with theorems settling the specification's
claims about queue backpressure, multi-band beat confirmation, debouncing,
warm-up, retry policy, command-rate limiting, band validation, NaN handling,
lifecycle idempotence, and the simulated-height invariant.

Conventions of the embedding:
* Python floats are modelled as `Option ℚ`: `some q` is the finite value `q`
  and `none` is IEEE NaN.  Arithmetic propagates NaN and every comparison
  with NaN is false, matching IEEE semantics for the operations the source
  uses (`+`, `*`, `/`, `>`, `numpy.mean`).
* Wall-clock times (`time.time()`) are `ℚ` values supplied as inputs.
* Randomness (`random.choice`) and the external audio / drone-SDK calls are
  externalized as explicit arguments: the chosen move, the chosen value and
  the SDK call's outcome are inputs of the corresponding functions.
-/

namespace MusicBeatSync

/-- A Python float: `some q` is finite, `none` is NaN. -/
abbrev Energy := Option ℚ

/-- IEEE addition: NaN-propagating. -/
def nanAdd : Energy → Energy → Energy
  | some a, some b => some (a + b)
  | _, _ => none

/-- IEEE multiplication: NaN-propagating. -/
def nanMul : Energy → Energy → Energy
  | some a, some b => some (a * b)
  | _, _ => none

/-- IEEE strict greater-than: any comparison involving NaN is false. -/
def nanGt : Energy → Energy → Bool
  | some a, some b => decide (b < a)
  | _, _ => false

/-- `numpy.mean`: sum divided by length; NaN-propagating, and the mean of an
empty sequence is NaN. -/
def nanMean (l : List Energy) : Energy :=
  if l.length = 0 then none
  else
    match l.foldl nanAdd (some 0) with
    | some s => some (s / (l.length : ℚ))
    | none => none

/-- `self.RATE` (line 19). -/
def RATE : ℚ := 44100

/-- `self.audio_queue = Queue(maxsize=10)` (line 21). -/
def audioQueueCapacity : ℕ := 10

/-- `self.energy_threshold = 0.0003` (line 24). -/
def energy_threshold : ℚ := 3 / 10000

/-- `self.min_beat_interval = 0.3` (line 25). -/
def min_beat_interval : ℚ := 3 / 10

/-- `self.history_size = 20` (line 41). -/
def history_size : ℕ := 20

/-- `self.min_active_bands = 2` (line 42). -/
def min_active_bands : ℕ := 2

/-- `self.freq_bands` (lines 32-37): name, low cutoff Hz, high cutoff Hz,
in declaration order. -/
def freq_bands : List (String × ℚ × ℚ) :=
  [("sub_bass", 20, 60), ("bass", 60, 250), ("low_mid", 250, 500), ("mid", 500, 2000)]

/-- The fields `__init__` (lines 10-46) assigns that the analysis depends on.
`__init__` performs plain assignments only: it validates nothing — in
particular it never inspects the band ranges — and it cannot fail.
Note that it does not assign `self.stream` or `self.p`; those attributes
only come into existence inside `start`. -/
structure DetectorConfig where
  CHUNK : ℕ
  RATE : ℚ
  queueMax : ℕ
  energy_threshold : ℚ
  min_beat_interval : ℚ
  freq_bands : List (String × ℚ × ℚ)
  history_size : ℕ
  min_active_bands : ℕ
  is_running : Bool
  deriving DecidableEq, Repr

/-- `__init__` (lines 10-46) as a value: unconditional field assignments. -/
def detectorInit : DetectorConfig :=
  { CHUNK := 2048
    RATE := RATE
    queueMax := audioQueueCapacity
    energy_threshold := energy_threshold
    min_beat_interval := min_beat_interval
    freq_bands := freq_bands
    history_size := history_size
    min_active_bands := min_active_bands
    is_running := false }

/-- `butter_bandpass` (lines 48-54): normalizes the band edges to the Nyquist
frequency and designs a 4th-order bandpass filter.  The scipy `butter` call
is modelled by its documented validation — digital critical frequencies must
satisfy `0 < Wn < 1`, otherwise it raises a `ValueError` — and its numeric
output (the IIR coefficients, transcendental reals) is represented by the
normalized cutoff pair that determines it. -/
def butter_bandpass (lowcut highcut : ℚ) : Except String (ℚ × ℚ) :=
  let nyq : ℚ := (1 / 2) * RATE
  let low := lowcut / nyq
  let high := highcut / nyq
  if 0 < low ∧ low < 1 ∧ 0 < high ∧ high < 1 then Except.ok (low, high)
  else Except.error "Digital filter critical frequencies must be 0 < Wn < 1"

/-- `get_band_energy` (lines 62-66) together with `bandpass_filter`
(lines 56-60): looks up the band's range and designs the filter via
`butter_bandpass` on every call; a `ValueError` from the filter design
propagates to the caller.  The RMS of the `lfilter` output is not rationally
computable, so the energy of the filtered signal is the oracle input `rms`;
only the control flow around it is modelled. -/
def get_band_energy (bands : List (String × ℚ × ℚ)) (name : String) (rms : Energy) :
    Except String Energy :=
  match bands.find? (fun b => b.1 = name) with
  | none => Except.error "KeyError"
  | some (_, low, high) => (butter_bandpass low high).map (fun _ => rms)

/-- History update for one band (lines 78-82): append the new energy, then
pop the oldest sample when the history exceeds `history_size`. -/
def updateHist (h : List Energy) (e : Energy) : List Energy :=
  if history_size < (h ++ [e]).length then (h ++ [e]).drop 1 else h ++ [e]

/-- `history[-1]`: the newest sample (NaN on an empty history, unreachable in
the guarded uses below). -/
def nanLast (h : List Energy) : Energy := h.getLast?.getD none

/-- The per-band activity test of `is_music_beat` (lines 85-94), applied to
the already-updated history: with at least 2 samples, the newest sample must
exceed 1.3 times the mean of the earlier samples (`history[:-1]`); with
fewer than 2 samples the band is never active. -/
def bandBeat (h : List Energy) : Bool :=
  if 2 ≤ h.length then nanGt (nanLast h) (nanMul (nanMean h.dropLast) (some (13 / 10)))
  else false

/-- The `for band in self.freq_bands` loop of `is_music_beat` (lines 76-102):
processes the (history, frame-energy) pairs in declaration order, carrying
the running count of active bands and the accumulated total energy, and
returns the updated histories. -/
def bandsLoop : List (List Energy × Energy) → ℕ → Energy → ℕ × Energy × List (List Energy)
  | [], n, tot => (n, tot, [])
  | (h, e) :: rest, n, tot =>
    let h2 := updateHist h e
    let n2 := if bandBeat h2 then n + 1 else n
    let tot2 := if bandBeat h2 then nanAdd tot (nanLast h2) else tot
    let r := bandsLoop rest n2 tot2
    (r.1, r.2.1, h2 :: r.2.2)

/-- The mutable per-band energy histories (`self.band_energies`, line 40),
one history per declared band, in declaration order. -/
structure BeatState where
  histories : List (List Energy)
  deriving DecidableEq, Repr

/-- `is_music_beat` (lines 68-119): per-band energies of the current frame
are the inputs (the outputs of `get_band_energy` on the frame, abstracted
because the filtering is transcendental); returns the beat flag
(`active_bands >= self.min_active_bands`, line 105), the accumulated total
energy, and the updated histories.  The visualization block (lines 113-117)
is console output and not modelled. -/
def is_music_beat (s : BeatState) (energies : List Energy) : Bool × Energy × BeatState :=
  let r := bandsLoop (s.histories.zip energies) 0 (some 0)
  (decide (min_active_bands ≤ r.1), r.2.1, ⟨r.2.2⟩)

/-- `self.band_energies = {band: [] for band in self.freq_bands}` (line 40):
every band starts with an empty history. -/
def initBeatState : BeatState := ⟨[[], [], [], []]⟩

/-- The claim's per-band activity predicate, stated the way the
specification words it: the band's current energy exceeds 1.3 times its
baseline, the baseline being the mean of the band's (updated) rolling
history excluding the newest sample. -/
def bandActiveClaim (h : List Energy) (e : Energy) : Bool :=
  nanGt e (nanMul (nanMean (updateHist h e).dropLast) (some (13 / 10)))

/-! ### Audio ingestion queue (producer/consumer) -/

/-- The shared state crossing the audio-callback boundary: the bounded frame
queue (frames abstracted as numbers) and the running flag. -/
structure PipeState where
  queue : List ℕ
  is_running : Bool
  deriving DecidableEq, Repr

/-- `audio_callback` (lines 213-224), producer side: only when running, and
only when the queue is not full (`Queue.full()` iff its length has reached
`maxsize`), the frame is enqueued with the non-blocking `put_nowait`;
otherwise the incoming frame is dropped and the callback returns at once. -/
def audio_callback (s : PipeState) (frame : ℕ) : PipeState :=
  if s.is_running then
    if s.queue.length < audioQueueCapacity then { s with queue := s.queue ++ [frame] }
    else s
  else s

/-- The consumer's dequeue in `process_audio` (lines 158-161):
`get(timeout=0.1)` pops the oldest frame; on timeout (`Empty`) the loop
continues with the queue unchanged. -/
def consumer_get (s : PipeState) : PipeState :=
  match s.queue with
  | [] => s
  | _ :: rest => { s with queue := rest }

/-- One interleaving step: a producer push or a consumer pop. -/
inductive PipeStep where
  | push (frame : ℕ)
  | pop
  deriving DecidableEq, Repr

def pipeApply (s : PipeState) : PipeStep → PipeState
  | .push f => audio_callback s f
  | .pop => consumer_get s

/-- Run an arbitrary interleaving of producer and consumer steps. -/
def pipeRun (s : PipeState) : List PipeStep → PipeState
  | [] => s
  | st :: rest => pipeRun (pipeApply s st) rest

/-- The detector's queue right after `start`: empty, running. -/
def pipeInit : PipeState := ⟨[], true⟩

/-! ### Beat-processing loop state (`process_audio`) -/

/-- The mutable state `process_audio` (lines 151-185) reads and writes when a
frame arrives: last accepted beat time, beat counter, and — as observation
fields — the list of accepted beat times and the number of executed listener
callbacks. -/
structure ProcState where
  last_beat_time : ℚ
  beat_count : ℕ
  beat_events : List ℚ
  callback_runs : ℕ
  deriving DecidableEq, Repr

/-- The per-frame body of `process_audio` (lines 163-179) after
`is_music_beat` returned: the frame's classifier verdict and energy are
inputs, together with the wall-clock time of processing and the number of
registered callbacks.  A beat is accepted iff the classifier said beat, the
energy exceeds `energy_threshold` and the time since the last accepted beat
exceeds `min_beat_interval`; acceptance updates the timestamp, increments
the counter and runs every registered callback (each callback's own failure
is caught per-callback, lines 176-179, so all of them run). -/
def process_frame (nCallbacks : ℕ) (s : ProcState) (isBeat : Bool) (energy t : ℚ) :
    ProcState :=
  if isBeat ∧ energy_threshold < energy ∧ min_beat_interval < t - s.last_beat_time then
    { last_beat_time := t
      beat_count := s.beat_count + 1
      beat_events := s.beat_events ++ [t]
      callback_runs := s.callback_runs + nCallbacks }
  else s

/-- `self.last_beat_time = 0`, `self.beat_count = 0` (lines 26-27). -/
def procInit : ProcState := ⟨0, 0, [], 0⟩

/-! ### Lifecycle (`start` / `stop`) -/

/-- Python-level lifecycle state of the detector: the running flag, whether
the attributes `self.stream`, `self.p`, `self.process_thread` exist (they
are created in `start`, never in `__init__`), and whether the stream and the
PyAudio handle have been released. -/
structure Lifecycle where
  is_running : Bool
  streamSet : Bool
  pSet : Bool
  threadSet : Bool
  streamClosed : Bool
  pTerminated : Bool
  deriving DecidableEq, Repr

/-- Lifecycle state right after `__init__`: not running, and none of
`self.stream`, `self.p`, `self.process_thread` exist yet. -/
def lifecycleInit : Lifecycle :=
  { is_running := false, streamSet := false, pSet := false, threadSet := false
    streamClosed := false, pTerminated := false }

/-- A raised Python exception. -/
inductive PyErr where
  | attributeError
  deriving DecidableEq, Repr

/-- `start` (lines 226-268), acquisition phase with the external audio
subsystem succeeding: the re-entry guard `if self.is_running: return`
(lines 228-229) makes a running detector's `start` a no-op; otherwise the
running flag is set and `self.p`, the processing thread and a freshly opened
`self.stream` are created.  The steady-state wait loop (lines 267-268) keeps
the state unchanged and is not part of the transition. -/
def start (s : Lifecycle) : Lifecycle :=
  if s.is_running then s
  else
    { is_running := true, streamSet := true, pSet := true, threadSet := true
      streamClosed := false, pTerminated := false }

/-- `stop` (lines 275-294): clears the running flag, then evaluates
`if self.stream:` — which raises `AttributeError` when `self.stream` was
never assigned (i.e. `start` never ran), since `__init__` does not create
the attribute — then stops and closes the stream and terminates PyAudio,
each in a `try/except` that swallows any error, and finally joins the
processing thread (guarded by `hasattr`, so no error there).  Returns the
resulting state together with the exception, if one escaped. -/
def stop (s : Lifecycle) : Lifecycle × Option PyErr :=
  let s1 := { s with is_running := false }
  if ¬ s1.streamSet then (s1, some .attributeError)
  else
    let s2 := { s1 with streamClosed := true }
    if ¬ s2.pSet then (s2, some .attributeError)
    else ({ s2 with pTerminated := true }, none)

end MusicBeatSync

namespace DroneControl

/-- The drum types `perform_dance_move` is routed by (`_get_moves_for_drum`,
lines 84-95). -/
inductive Drum where
  | kick
  | snare
  | hihat
  | toms
  | other
  deriving DecidableEq, Repr

/-- The moves `_get_moves_for_drum` can select (lines 84-95). -/
inductive Move where
  | move_up
  | move_down
  | move_left
  | move_right
  | move_forward
  | move_back
  | rotate_cw
  | rotate_ccw
  | flip_f
  | flip_b
  | flip_l
  | flip_r
  deriving DecidableEq, Repr

/-- `self.min_command_interval = 0.1  # Minimum time between moves`
(line 15). -/
def min_command_interval : ℚ := 1 / 10

/-- `self.max_queue_size = 5` (line 17). -/
def max_queue_size : ℕ := 5

/-- The mutable state of `DroneController.__init__` (lines 9-21), plus
observation fields for the claims: `executedAt` records the wall-clock time
at which `_execute_next_move` performed each move, `attempts` counts the
drone-SDK calls made by `_perform_real_move`, and `loggedErrors` counts the
exceptions its `except` block caught. -/
structure DroneState where
  simulation_mode : Bool
  is_flying : Bool
  current_height : ℤ
  last_command_time : ℚ
  command_queue : List (ℚ × Drum)
  executedAt : List ℚ
  attempts : ℕ
  loggedErrors : ℕ
  deriving DecidableEq, Repr

/-- `__init__` (lines 9-21). -/
def droneInit (simulation_mode : Bool) : DroneState :=
  { simulation_mode := simulation_mode, is_flying := false, current_height := 0
    last_command_time := 0, command_queue := [], executedAt := []
    attempts := 0, loggedErrors := 0 }

/-- `takeoff` (lines 31-40): in simulation mode the height becomes 100 cm;
in real mode the SDK call leaves the model's height untouched; either way
the drone is flying afterwards. -/
def takeoff (s : DroneState) : DroneState :=
  if s.simulation_mode then { s with current_height := 100, is_flying := true }
  else { s with is_flying := true }

/-- `land` (lines 42-51): in simulation mode the height is reset to 0;
either way the drone is no longer flying. -/
def land (s : DroneState) : DroneState :=
  if s.simulation_mode then { s with current_height := 0, is_flying := false }
  else { s with is_flying := false }

/-- `_perform_simulated_move` (lines 97-150), with the randomly chosen move
and value externalized as inputs (`random.choice` picks the move from the
drum's menu and the value from `[20, 30, 50]` or `[45, 90, 180]`, all
natural numbers).  Only `move_up` and `move_down` touch state: up adds the
value to the height, down subtracts it clamped at 0 (line 136,
`max(0, self.current_height - value)`). -/
def perform_simulated_move (s : DroneState) (m : Move) (v : ℕ) : DroneState :=
  match m with
  | .move_up => { s with current_height := s.current_height + v }
  | .move_down => { s with current_height := max 0 (s.current_height - v) }
  | _ => s

/-- `_perform_real_move` (lines 152-214), with the chosen move and value
externalized and the single drone-SDK call's result given as `outcome`.
The whole body sits in one `try/except` (lines 154, 213-214): the SDK is
called exactly once, and if that call raises, the exception is caught and
printed — it never propagates, there is no retry and no backoff, and the
height is not tracked in real mode. -/
def perform_real_move (s : DroneState) (outcome : Except String Unit) : DroneState :=
  { s with
    attempts := s.attempts + 1
    loggedErrors := s.loggedErrors + (match outcome with | .ok _ => 0 | .error _ => 1) }

/-- `_execute_next_move` (lines 71-82): pops the oldest queued command and —
this is the line the rate-limit claims hinge on —
`self.last_command_time, drum_type = self.command_queue.pop(0)` (line 77)
sets `last_command_time` to the popped command's *enqueue* timestamp, not to
the time of execution.  `now` is the wall-clock time at which the caller
runs this (recorded in `executedAt`); `m`, `v`, `outcome` externalize the
move choice and SDK result of the mode-selected perform call. -/
def execute_next_move (s : DroneState) (now : ℚ) (m : Move) (v : ℕ)
    (outcome : Except String Unit) : DroneState :=
  match s.command_queue with
  | [] => s
  | (te, _) :: rest =>
    let s2 := { s with
      last_command_time := te
      command_queue := rest
      executedAt := s.executedAt ++ [now] }
    if s2.simulation_mode then perform_simulated_move s2 m v
    else perform_real_move s2 outcome

/-- `perform_dance_move` (lines 53-69): ignored unless flying; the command is
queued only when the queue is below `max_queue_size` (and when the queue is
full nothing at all happens, not even an execution attempt, since the
interval check sits inside the same branch); after queueing, the next move
is executed iff `current_time - self.last_command_time >=
self.min_command_interval` (line 67). -/
def perform_dance_move (s : DroneState) (now : ℚ) (m : Move) (v : ℕ)
    (outcome : Except String Unit) (d : Drum) : DroneState :=
  if ¬ s.is_flying then s
  else if s.command_queue.length < max_queue_size then
    let s2 := { s with command_queue := s.command_queue ++ [(now, d)] }
    if min_command_interval ≤ now - s2.last_command_time then
      execute_next_move s2 now m v outcome
    else s2
  else s

/-- One externally triggered controller operation, with all random choices
and SDK outcomes carried as data. -/
inductive DanceOp where
  | takeoffOp
  | landOp
  | danceOp (now : ℚ) (m : Move) (v : ℕ) (outcome : Except String Unit) (d : Drum)

def applyOp (s : DroneState) : DanceOp → DroneState
  | .takeoffOp => takeoff s
  | .landOp => land s
  | .danceOp now m v outcome d => perform_dance_move s now m v outcome d

/-- Run a sequence of controller operations. -/
def runDrone (s : DroneState) : List DanceOp → DroneState
  | [] => s
  | op :: rest => runDrone (applyOp s op) rest

end DroneControl

namespace MusicBeatSync

/-! ### Queue backpressure (C1) -/

theorem pipeRun_length_le (steps : List PipeStep) (s : PipeState)
    (h : s.queue.length ≤ audioQueueCapacity) :
    (pipeRun s steps).queue.length ≤ audioQueueCapacity := by
  induction steps generalizing s with
  | nil => exact h
  | cons st rest ih =>
    refine ih _ ?_
    cases st with
    | push f =>
      simp only [pipeApply, audio_callback]
      split
      · split
        · next hlt => simp only [List.length_append, List.length_cons, List.length_nil]; omega
        · exact h
      · exact h
    | pop =>
      cases hq : s.queue with
      | nil => simp [pipeApply, consumer_get, hq, audioQueueCapacity]
      | cons a t =>
        simp only [pipeApply, consumer_get, hq]
        simp only [hq, List.length_cons] at h
        omega

/-- C1: for every interleaving of producer pushes and consumer pops starting
from the detector's fresh queue, the audio queue's length never exceeds its
capacity of 10, and a producer push arriving at a full queue leaves the
queue unchanged (the incoming frame is dropped; `audio_callback` is a total
function that enqueues with `put_nowait` only after checking `full()`, so it
returns without blocking). -/
theorem C1_backpressure :
    (∀ steps : List PipeStep, (pipeRun pipeInit steps).queue.length ≤ audioQueueCapacity) ∧
    (∀ (steps : List PipeStep) (f : ℕ),
      audioQueueCapacity ≤ (pipeRun pipeInit steps).queue.length →
      (audio_callback (pipeRun pipeInit steps) f).queue = (pipeRun pipeInit steps).queue) := by
  constructor
  · intro steps
    exact pipeRun_length_le steps pipeInit (by simp [pipeInit])
  · intro steps f hfull
    unfold audio_callback
    split
    · split
      · next hlt => exact absurd hlt (by omega)
      · rfl
    · rfl

/-- C1 witness: after eleven producer pushes the queue is full (ten frames)
and a twelfth push is dropped. -/
theorem C1_backpressure_witness :
    audioQueueCapacity ≤ (pipeRun pipeInit (List.replicate 11 (PipeStep.push 0))).queue.length ∧
    (audio_callback (pipeRun pipeInit (List.replicate 11 (PipeStep.push 0))) 7).queue =
      (pipeRun pipeInit (List.replicate 11 (PipeStep.push 0))).queue :=
  ⟨by decide, C1_backpressure.2 (List.replicate 11 (PipeStep.push 0)) 7 (by decide)⟩

/-! ### Multi-band confirmation (C2) and warm-up (C4) -/

theorem nanGt_none_right (e : Energy) : nanGt e none = false := by
  cases e <;> rfl

theorem updateHist_getLast (h : List Energy) (e : Energy) :
    nanLast (updateHist h e) = e := by
  unfold updateHist nanLast
  split
  · next hcond =>
    cases h with
    | nil => simp [history_size] at hcond
    | cons a t => simp
  · simp

theorem updateHist_length_ge_two (h : List Energy) (e : Energy) (hne : h ≠ []) :
    2 ≤ (updateHist h e).length := by
  unfold updateHist
  split
  · next hcond =>
    simp only [List.length_drop, List.length_append, List.length_cons, List.length_nil]
    simp only [history_size, List.length_append, List.length_cons, List.length_nil] at hcond
    omega
  · cases h with
    | nil => exact absurd rfl hne
    | cons a t =>
      simp only [List.length_append, List.length_cons, List.length_nil]
      omega

theorem bandBeat_eq_claim (h : List Energy) (e : Energy) :
    bandBeat (updateHist h e) = bandActiveClaim h e := by
  cases h with
  | nil =>
    have hu : updateHist [] e = [e] := by simp [updateHist, history_size]
    rw [bandActiveClaim, hu]
    simp [bandBeat, nanMean, nanMul, nanGt_none_right]
  | cons a t =>
    rw [bandActiveClaim, bandBeat,
      if_pos (updateHist_length_ge_two (a :: t) e (by simp)),
      updateHist_getLast]

theorem bandsLoop_count (l : List (List Energy × Energy)) (n : ℕ) (tot : Energy) :
    (bandsLoop l n tot).1 = n + l.countP (fun p => bandBeat (updateHist p.1 p.2)) := by
  induction l generalizing n tot with
  | nil => simp [bandsLoop]
  | cons p rest ih =>
    obtain ⟨h, e⟩ := p
    by_cases hb : bandBeat (updateHist h e) = true <;>
      simp [bandsLoop, hb, ih, List.countP_cons] <;> omega

theorem bandsLoop_total (l : List (List Energy × Energy)) (n : ℕ) (tot : Energy) :
    (bandsLoop l n tot).2.1 =
      (l.filter (fun p => bandBeat (updateHist p.1 p.2))).foldl
        (fun t p => nanAdd t p.2) tot := by
  induction l generalizing n tot with
  | nil => simp [bandsLoop]
  | cons p rest ih =>
    obtain ⟨h, e⟩ := p
    by_cases hb : bandBeat (updateHist h e) = true
    · simp [bandsLoop, hb, List.filter_cons, ih, updateHist_getLast]
    · simp [bandsLoop, hb, List.filter_cons, ih]

/-- C2: in multi-band confirmation mode, for every detector state and every
frame (given by its per-band energies), a band is active exactly when its
current energy exceeds 1.3 times the mean of its history excluding the
newest sample; the frame is a beat exactly when the number of active bands
reaches the quorum `min_active_bands` (2); and the reported total energy is
the sum (accumulated in band-declaration order from 0) of the active bands'
current energies. -/
theorem C2_multiband_confirmation (s : BeatState) (energies : List Energy) :
    (∀ h e, bandBeat (updateHist h e) = bandActiveClaim h e) ∧
    (is_music_beat s energies).1 =
      decide (min_active_bands ≤
        (s.histories.zip energies).countP (fun p => bandActiveClaim p.1 p.2)) ∧
    (is_music_beat s energies).2.1 =
      ((s.histories.zip energies).filter (fun p => bandActiveClaim p.1 p.2)).foldl
        (fun t p => nanAdd t p.2) (some 0) := by
  refine ⟨bandBeat_eq_claim, ?_, ?_⟩
  · rw [is_music_beat]
    simp only [bandsLoop_count, Nat.zero_add]
    simp only [bandBeat_eq_claim]
  · rw [is_music_beat]
    simp only [bandsLoop_total]
    simp only [bandBeat_eq_claim]

/-- C4: on the freshly constructed detector every band history is empty, so
whatever the first frame's band energies are, `is_music_beat` reports no
beat; and in general a band whose updated history holds fewer than 2
samples is never active. -/
theorem C4_warmup :
    (∀ energies : List Energy, (is_music_beat initBeatState energies).1 = false) ∧
    (∀ (h : List Energy) (e : Energy),
      (updateHist h e).length < 2 → bandBeat (updateHist h e) = false) := by
  constructor
  · intro es
    rcases es with _ | ⟨a, _ | ⟨b, _ | ⟨c, _ | ⟨d, rest⟩⟩⟩⟩ <;>
      simp [is_music_beat, initBeatState, bandsLoop, updateHist, bandBeat,
        history_size, min_active_bands]
  · intro h e hlen
    rw [bandBeat, if_neg (by omega)]

/-- C4 witness: a single-sample history (the first frame after start) is
strictly shorter than 2 and its band is not active. -/
theorem C4_warmup_witness :
    (updateHist [] (some 1)).length < 2 ∧ bandBeat (updateHist [] (some 1)) = false :=
  ⟨by decide, C4_warmup.2 [] (some 1) (by decide)⟩

/-! ### Debounce (C3) -/

/-- C3: if two frames would each qualify as a beat (classifier verdict true
and energy above `energy_threshold`), the first is accepted at `t1`, and the
second is processed at `t2` less than `min_beat_interval` after `t1`, then
after both frames exactly one beat has been accepted: the state equals the
post-first-beat state, so the beat count rose by exactly one, one beat event
was recorded, the callbacks ran for the first frame only, and the second
frame changed nothing. -/
theorem C3_debounce (nCallbacks : ℕ) (s : ProcState) (e1 e2 t1 t2 : ℚ)
    (hq1 : energy_threshold < e1) (hq2 : energy_threshold < e2)
    (hfirst : min_beat_interval < t1 - s.last_beat_time)
    (hclose : t2 - t1 < min_beat_interval) :
    process_frame nCallbacks (process_frame nCallbacks s true e1 t1) true e2 t2 =
      { last_beat_time := t1
        beat_count := s.beat_count + 1
        beat_events := s.beat_events ++ [t1]
        callback_runs := s.callback_runs + nCallbacks } := by
  have h1 : process_frame nCallbacks s true e1 t1 =
      { last_beat_time := t1
        beat_count := s.beat_count + 1
        beat_events := s.beat_events ++ [t1]
        callback_runs := s.callback_runs + nCallbacks } := by
    rw [process_frame, if_pos ⟨rfl, hq1, hfirst⟩]
  rw [h1, process_frame, if_neg]
  intro hcon
  exact absurd hcon.2.2 (by simp only []; linarith)

/-- C3 witness: from the fresh processing state, a qualifying frame at t=1 is
accepted and a second qualifying frame at t=1.1 (0.1 s later, inside the
0.3 s debounce window) is suppressed. -/
theorem C3_debounce_witness :
    energy_threshold < 1 ∧ min_beat_interval < (1 : ℚ) - procInit.last_beat_time ∧
    (11 / 10 : ℚ) - 1 < min_beat_interval ∧
    process_frame 1 (process_frame 1 procInit true 1 1) true 1 (11 / 10) =
      { last_beat_time := 1
        beat_count := procInit.beat_count + 1
        beat_events := procInit.beat_events ++ [1]
        callback_runs := procInit.callback_runs + 1 } :=
  ⟨by norm_num [energy_threshold], by norm_num [min_beat_interval, procInit],
    by norm_num [min_beat_interval],
    C3_debounce 1 procInit 1 1 1 (11 / 10) (by norm_num [energy_threshold])
      (by norm_num [energy_threshold]) (by norm_num [min_beat_interval, procInit])
      (by norm_num [min_beat_interval])⟩

/-! ### Band validation (C7) -/

/-- Shared helper: a band whose upper edge is at or above the Nyquist
frequency makes `get_band_energy` fail on the per-frame path with the
filter-design error. -/
theorem get_band_energy_nyquist_error (name : String) (low high : ℚ) (rms : Energy)
    (hhigh : RATE / 2 ≤ high) :
    get_band_energy [(name, low, high)] name rms =
      Except.error "Digital filter critical frequencies must be 0 < Wn < 1" := by
  rw [get_band_energy]
  have hfind : List.find? (fun b => decide (b.1 = name)) [(name, low, high)] =
      some (name, low, high) := by
    simp [List.find?]
  rw [hfind]
  simp only [butter_bandpass]
  rw [if_neg]
  · rfl
  · intro hcon
    have h2 : high / ((1 / 2) * RATE) < 1 := hcon.2.2.2
    rw [div_lt_one (by rw [RATE]; norm_num)] at h2
    rw [RATE] at hhigh h2
    linarith

/-- Shared helper: every band `__init__` declares satisfies
`0 < lowHz < highHz < RATE/2`, so the band-range error branch is unreachable
for the constructed detector — construction-time validation would have
nothing to reject, and indeed construction checks nothing. -/
theorem detectorInit_bands_valid :
    ∀ b ∈ detectorInit.freq_bands, 0 < b.2.1 ∧ b.2.1 < b.2.2 ∧ b.2.2 < detectorInit.RATE / 2 := by
  intro b hb
  simp only [detectorInit, freq_bands, List.mem_cons, List.not_mem_nil, or_false] at hb
  rcases hb with rfl | rfl | rfl | rfl <;>
    refine ⟨by norm_num, by norm_num, by norm_num [detectorInit, RATE]⟩

/-- C7 counterexample to the claim's placement of the band-range check: the
detector's construction is an unconditional assignment that cannot fail —
indeed every band it declares satisfies `0 < low < high < RATE/2`, so the
claimed construction-time `ConfigurationError` cannot even be provoked —
while a band whose upper edge reaches Nyquist is rejected on the per-frame
path: `get_band_energy` (called once per band per frame) propagates the
filter-design `ValueError`. -/
theorem C7_counterexample :
    detectorInit = { CHUNK := 2048, RATE := 44100, queueMax := 10
                     energy_threshold := 3 / 10000, min_beat_interval := 3 / 10
                     freq_bands := freq_bands, history_size := 20
                     min_active_bands := 2, is_running := false } ∧
    (∀ b ∈ detectorInit.freq_bands, 0 < b.2.1 ∧ b.2.1 < b.2.2 ∧ b.2.2 < detectorInit.RATE / 2) ∧
    get_band_energy [("bad", 100, 30000)] "bad" (some 1) =
      Except.error "Digital filter critical frequencies must be 0 < Wn < 1" :=
  ⟨rfl, detectorInit_bands_valid,
    get_band_energy_nyquist_error "bad" 100 30000 (some 1) (by norm_num [RATE])⟩

/-- C7 (amended): construction performs no band validation and cannot fail
(it is the unconditional record assignment `detectorInit`); all four
declared bands happen to satisfy `0 < lowHz < highHz < RATE/2`; and a band
whose upper edge is at or above Nyquist fails on the per-frame path, inside
`get_band_energy`, with the filter-design error. -/
theorem C7_band_validation :
    (detectorInit.freq_bands = freq_bands ∧
      ∀ b ∈ detectorInit.freq_bands, 0 < b.2.1 ∧ b.2.1 < b.2.2 ∧ b.2.2 < detectorInit.RATE / 2) ∧
    (∀ (name : String) (low high : ℚ) (rms : Energy),
      RATE / 2 ≤ high →
      get_band_energy [(name, low, high)] name rms =
        Except.error "Digital filter critical frequencies must be 0 < Wn < 1") :=
  ⟨⟨rfl, detectorInit_bands_valid⟩, get_band_energy_nyquist_error⟩

/-- C7 witness: the second part applied to a band reaching 30 kHz, above the
22.05 kHz Nyquist frequency. -/
theorem C7_band_validation_witness :
    RATE / 2 ≤ (30000 : ℚ) ∧
    get_band_energy [("bad", 100, 30000)] "bad" (some 1) =
      Except.error "Digital filter critical frequencies must be 0 < Wn < 1" :=
  ⟨by norm_num [RATE], C7_band_validation.2 "bad" 100 30000 (some 1) (by norm_num [RATE])⟩

/-! ### NaN handling (C8) -/

/-- C8 counterexample: feed three frames — all-band energies 1, then NaN,
then 100.  The NaN is appended to each band's history unchanged (it is not
replaced by zero and the frame is not skipped), and on the third frame the
baseline mean over `[1, NaN]` is NaN, so despite energy 100 no band is
active and no beat is reported; had the NaN been treated as zero the
baseline would have been 1/2, and had the frame been skipped it would have
been 1. -/
theorem C8_counterexample :
    (is_music_beat
      (is_music_beat
        (is_music_beat initBeatState [some 1, some 1, some 1, some 1]).2.2
        [none, none, none, none]).2.2
      [some 100, some 100, some 100, some 100]).1 = false ∧
    (is_music_beat
      (is_music_beat initBeatState [some 1, some 1, some 1, some 1]).2.2
      [none, none, none, none]).2.2.histories.head? = some [some 1, none] ∧
    nanMean [some 1, none] = none ∧
    nanMean [some (1 : ℚ), some 0] = some (1 / 2) ∧
    nanMean [some (1 : ℚ)] = some 1 := by
  refine ⟨by decide, by decide, by decide, ?_, ?_⟩
  · show nanMean [some 1, some 0] = some (1 / 2)
    rw [nanMean]
    norm_num [nanAdd]
  · show nanMean [some 1] = some 1
    rw [nanMean]
    norm_num [nanAdd]

/-- C8 (amended): the classifier performs no NaN handling, but it also never
crashes on NaN: a NaN band energy is appended to the band's history as-is
(the newest history sample is NaN, not zero), the mean of any history
window containing NaN is NaN, and while the NaN sits anywhere in the
baseline window the band cannot be active because every comparison with
NaN is false — so the invalid value does affect subsequent frames'
baselines, suppressing the band, until it leaves the 20-sample window. -/
theorem foldl_nanAdd_none_acc (h : List Energy) : h.foldl nanAdd none = none := by
  induction h with
  | nil => rfl
  | cons a t ih =>
    have ha : nanAdd none a = none := by cases a <;> rfl
    simp only [List.foldl, ha]
    exact ih

theorem foldl_nanAdd_of_mem_none (h : List Energy) (acc : Energy) (hmem : none ∈ h) :
    h.foldl nanAdd acc = none := by
  induction h generalizing acc with
  | nil => cases hmem
  | cons a t ih =>
    rcases List.mem_cons.mp hmem with ha | ht
    · have hacc : nanAdd acc a = none := by rw [← ha]; cases acc <;> rfl
      simp only [List.foldl, hacc]
      exact foldl_nanAdd_none_acc t
    · exact ih (nanAdd acc a) ht

theorem nanMean_of_mem_none (h : List Energy) (hmem : none ∈ h) : nanMean h = none := by
  rw [nanMean, if_neg (by have := List.ne_nil_of_mem hmem; simp [List.length_eq_zero, this])]
  rw [foldl_nanAdd_of_mem_none h (some 0) hmem]

theorem C8_nan_poisons_baseline :
    (∀ h : List Energy, nanLast (updateHist h none) = none) ∧
    (∀ h : List Energy, none ∈ h → nanMean h = none) ∧
    (∀ (h : List Energy) (e : Energy),
      none ∈ (updateHist h e).dropLast → bandBeat (updateHist h e) = false) := by
  refine ⟨fun h => updateHist_getLast h none, nanMean_of_mem_none, ?_⟩
  intro h e hmem
  rw [bandBeat]
  split
  · rw [nanMean_of_mem_none _ hmem]
    rw [show nanMul none (some (13 / 10)) = none from rfl, nanGt_none_right]
  · rfl

/-- C8 witness: a history window containing the NaN sample makes the band
inactive even for a loud current sample. -/
theorem C8_nan_poisons_baseline_witness :
    none ∈ (updateHist [some 1, none] (some 100)).dropLast ∧
    bandBeat (updateHist [some 1, none] (some 100)) = false :=
  ⟨by decide, C8_nan_poisons_baseline.2.2 [some 1, none] (some 100) (by decide)⟩

/-! ### Lifecycle idempotence (C9) -/

/-- C9 counterexample: `stop()` on a detector that was constructed but never
started is not a no-op — evaluating `if self.stream:` raises
`AttributeError` because `__init__` never assigns `self.stream`. -/
theorem C9_counterexample :
    (stop lifecycleInit).2 = some PyErr.attributeError := rfl

/-- C9 (amended): `start()` while already running is a no-op; after one
successful `start()`, a first `stop()` completes without error, leaving the
detector not running with the stream closed and PyAudio terminated, and a
second `stop()` raises no error and leaves the state unchanged — but
`stop()` while idle is only harmless after a previous `start()`; on a
never-started detector it raises `AttributeError` (see the
counterexample). -/
theorem C9_stop_idempotent (s : Lifecycle) (hnr : s.is_running = false) :
    (∀ r : Lifecycle, r.is_running = true → start r = r) ∧
    (stop (start s)).2 = none ∧
    (stop (stop (start s)).1).1 = (stop (start s)).1 ∧
    (stop (stop (start s)).1).2 = none ∧
    (stop (start s)).1.is_running = false ∧
    (stop (start s)).1.streamClosed = true ∧
    (stop (start s)).1.pTerminated = true := by
  have hstart : start s =
      { is_running := true, streamSet := true, pSet := true, threadSet := true
        streamClosed := false, pTerminated := false } := by
    rw [start, if_neg (by simp [hnr])]
  refine ⟨fun r hr => by rw [start, if_pos hr], ?_, ?_, ?_, ?_, ?_, ?_⟩ <;>
    rw [hstart] <;> rfl

/-- C9 witness: the double-stop property instantiated on a detector fresh
out of `__init__` that is then started once. -/
theorem C9_stop_idempotent_witness :
    lifecycleInit.is_running = false ∧
    (stop (stop (start lifecycleInit)).1).1 = (stop (start lifecycleInit)).1 ∧
    (stop (stop (start lifecycleInit)).1).2 = none :=
  ⟨rfl, (C9_stop_idempotent lifecycleInit rfl).2.2.1,
    (C9_stop_idempotent lifecycleInit rfl).2.2.2.1⟩

end MusicBeatSync

namespace DroneControl

/-! ### Retry policy (C5) -/

/-- C5 counterexample: with the drone SDK call failing, a dance command is
attempted exactly once — not the claimed three times — the exception is
caught and logged inside `_perform_real_move`, and nothing is retried. -/
theorem C5_counterexample :
    (perform_real_move (takeoff (droneInit false)) (Except.error "SDK failure")).attempts = 1 ∧
    ¬ (perform_real_move (takeoff (droneInit false)) (Except.error "SDK failure")).attempts = 3 ∧
    (perform_real_move (takeoff (droneInit false)) (Except.error "SDK failure")).loggedErrors = 1 :=
  ⟨rfl, by decide, rfl⟩

/-- C5 (amended): a command whose execution fails is attempted exactly once
(no retry, no backoff): the SDK call count rises by one, the caught
exception is logged, the command — already dequeued — is dropped, the
failure does not propagate (the function returns an ordinary state), and a
subsequent eligible command is still accepted and executed. -/
theorem C5_single_attempt (s : DroneState) (msg : String) (t : ℚ) (m : Move) (v : ℕ)
    (d : Drum) (hfly : s.is_flying = true) (hsim : s.simulation_mode = false)
    (hq : s.command_queue = []) (ht : min_command_interval ≤ t - s.last_command_time) :
    (perform_dance_move s t m v (Except.error msg) d).attempts = s.attempts + 1 ∧
    (perform_dance_move s t m v (Except.error msg) d).loggedErrors = s.loggedErrors + 1 ∧
    (perform_dance_move s t m v (Except.error msg) d).executedAt = s.executedAt ++ [t] ∧
    (perform_dance_move s t m v (Except.error msg) d).command_queue = [] ∧
    ∀ (t2 : ℚ) (m2 : Move) (v2 : ℕ) (d2 : Drum) (msg2 : String),
      min_command_interval ≤ t2 - t →
      (perform_dance_move (perform_dance_move s t m v (Except.error msg) d)
          t2 m2 v2 (Except.error msg2) d2).executedAt = s.executedAt ++ [t] ++ [t2] ∧
      (perform_dance_move (perform_dance_move s t m v (Except.error msg) d)
          t2 m2 v2 (Except.error msg2) d2).attempts = s.attempts + 2 := by
  have h1 : perform_dance_move s t m v (Except.error msg) d =
      { s with command_queue := [], last_command_time := t
               executedAt := s.executedAt ++ [t]
               attempts := s.attempts + 1, loggedErrors := s.loggedErrors + 1 } := by
    rw [perform_dance_move, if_neg (by simp [hfly]),
      if_pos (by simp [hq, max_queue_size])]
    rw [if_pos (by simpa using ht)]
    simp only [execute_next_move, hq, List.nil_append]
    rw [if_neg (by simp [hsim])]
    rfl
  rw [h1]
  refine ⟨rfl, rfl, rfl, rfl, ?_⟩
  intro t2 m2 v2 d2 msg2 ht2
  have h2 : perform_dance_move
      { s with command_queue := [], last_command_time := t
               executedAt := s.executedAt ++ [t]
               attempts := s.attempts + 1, loggedErrors := s.loggedErrors + 1 }
      t2 m2 v2 (Except.error msg2) d2 =
      { s with command_queue := [], last_command_time := t2
               executedAt := s.executedAt ++ [t] ++ [t2]
               attempts := s.attempts + 2, loggedErrors := s.loggedErrors + 2 } := by
    rw [perform_dance_move, if_neg (by simp [hfly]),
      if_pos (by simp [max_queue_size])]
    rw [if_pos (by simpa using ht2)]
    simp only [execute_next_move, List.nil_append]
    rw [if_neg (by simp [hsim])]
    rfl
  rw [h2]
  exact ⟨rfl, rfl⟩

/-- C5 witness: a real-mode controller after takeoff, one failing command at
t=1 and a second failing command at t=2. -/
theorem C5_single_attempt_witness :
    (takeoff (droneInit false)).is_flying = true ∧
    (takeoff (droneInit false)).simulation_mode = false ∧
    (takeoff (droneInit false)).command_queue = [] ∧
    min_command_interval ≤ (1 : ℚ) - (takeoff (droneInit false)).last_command_time ∧
    min_command_interval ≤ (2 : ℚ) - 1 ∧
    (perform_dance_move
        (perform_dance_move (takeoff (droneInit false)) 1 Move.flip_f 20
          (Except.error "fail") Drum.kick)
        2 Move.flip_b 20 (Except.error "fail") Drum.snare).attempts =
      (takeoff (droneInit false)).attempts + 2 :=
  ⟨rfl, rfl, rfl, by norm_num [min_command_interval, takeoff, droneInit],
    by norm_num [min_command_interval],
    ((C5_single_attempt (takeoff (droneInit false)) "fail" 1 Move.flip_f 20 Drum.kick
        rfl rfl rfl (by norm_num [min_command_interval, takeoff, droneInit])).2.2.2.2
      2 Move.flip_b 20 Drum.snare "fail" (by norm_num [min_command_interval])).2⟩

/-! ### Command rate limiting (C6) -/

/-- C6: evaluation of the controller on the failing input.  Five dance
commands arrive at t = 10, 10.01, 10.05, 10.11 and 10.12 s on a flying
simulated drone with the default 0.1 s minimum command interval.  Because
`_execute_next_move` assigns the popped command's *enqueue* timestamp to
`last_command_time` (line 77) instead of the execution time, the interval
gate passes at both t = 10.11 (against `last_command_time = 10`) and
t = 10.12 (against `last_command_time = 10.01`), so moves execute at
10, 10.11 and 10.12 — the last two only 0.01 s apart, strictly less than
the minimum command interval. -/
theorem C6_rate_limit_violation :
    (runDrone (droneInit true)
        [DanceOp.takeoffOp,
         DanceOp.danceOp 10 Move.flip_f 20 (Except.ok ()) Drum.kick,
         DanceOp.danceOp (1001 / 100) Move.flip_f 20 (Except.ok ()) Drum.kick,
         DanceOp.danceOp (1005 / 100) Move.flip_f 20 (Except.ok ()) Drum.kick,
         DanceOp.danceOp (1011 / 100) Move.flip_f 20 (Except.ok ()) Drum.kick,
         DanceOp.danceOp (1012 / 100) Move.flip_f 20 (Except.ok ()) Drum.kick]).executedAt =
      [10, 1011 / 100, 1012 / 100] ∧
    (1012 / 100 : ℚ) - 1011 / 100 < min_command_interval := by
  have h0 : takeoff (droneInit true) =
      { simulation_mode := true, is_flying := true, current_height := 100
        last_command_time := 0, command_queue := [], executedAt := []
        attempts := 0, loggedErrors := 0 } := by
    rfl
  have h1 : perform_dance_move
      { simulation_mode := true, is_flying := true, current_height := 100
        last_command_time := 0, command_queue := [], executedAt := []
        attempts := 0, loggedErrors := 0 }
      10 Move.flip_f 20 (Except.ok ()) Drum.kick =
      { simulation_mode := true, is_flying := true, current_height := 100
        last_command_time := 10, command_queue := [], executedAt := [10]
        attempts := 0, loggedErrors := 0 } := by
    rw [perform_dance_move, if_neg (by simp), if_pos (by norm_num [max_queue_size]),
      if_pos (by norm_num [min_command_interval])]
    rfl
  have h2 : perform_dance_move
      { simulation_mode := true, is_flying := true, current_height := 100
        last_command_time := 10, command_queue := [], executedAt := [10]
        attempts := 0, loggedErrors := 0 }
      (1001 / 100) Move.flip_f 20 (Except.ok ()) Drum.kick =
      { simulation_mode := true, is_flying := true, current_height := 100
        last_command_time := 10, command_queue := [(1001 / 100, Drum.kick)]
        executedAt := [10], attempts := 0, loggedErrors := 0 } := by
    rw [perform_dance_move, if_neg (by simp), if_pos (by norm_num [max_queue_size]),
      if_neg (by norm_num [min_command_interval])]
    rfl
  have h3 : perform_dance_move
      { simulation_mode := true, is_flying := true, current_height := 100
        last_command_time := 10, command_queue := [(1001 / 100, Drum.kick)]
        executedAt := [10], attempts := 0, loggedErrors := 0 }
      (1005 / 100) Move.flip_f 20 (Except.ok ()) Drum.kick =
      { simulation_mode := true, is_flying := true, current_height := 100
        last_command_time := 10
        command_queue := [(1001 / 100, Drum.kick), (1005 / 100, Drum.kick)]
        executedAt := [10], attempts := 0, loggedErrors := 0 } := by
    rw [perform_dance_move, if_neg (by simp), if_pos (by norm_num [max_queue_size]),
      if_neg (by norm_num [min_command_interval])]
    rfl
  have h4 : perform_dance_move
      { simulation_mode := true, is_flying := true, current_height := 100
        last_command_time := 10
        command_queue := [(1001 / 100, Drum.kick), (1005 / 100, Drum.kick)]
        executedAt := [10], attempts := 0, loggedErrors := 0 }
      (1011 / 100) Move.flip_f 20 (Except.ok ()) Drum.kick =
      { simulation_mode := true, is_flying := true, current_height := 100
        last_command_time := 1001 / 100
        command_queue := [(1005 / 100, Drum.kick), (1011 / 100, Drum.kick)]
        executedAt := [10, 1011 / 100], attempts := 0, loggedErrors := 0 } := by
    rw [perform_dance_move, if_neg (by simp), if_pos (by norm_num [max_queue_size]),
      if_pos (by norm_num [min_command_interval])]
    rfl
  have h5 : perform_dance_move
      { simulation_mode := true, is_flying := true, current_height := 100
        last_command_time := 1001 / 100
        command_queue := [(1005 / 100, Drum.kick), (1011 / 100, Drum.kick)]
        executedAt := [10, 1011 / 100], attempts := 0, loggedErrors := 0 }
      (1012 / 100) Move.flip_f 20 (Except.ok ()) Drum.kick =
      { simulation_mode := true, is_flying := true, current_height := 100
        last_command_time := 1005 / 100
        command_queue := [(1011 / 100, Drum.kick), (1012 / 100, Drum.kick)]
        executedAt := [10, 1011 / 100, 1012 / 100], attempts := 0, loggedErrors := 0 } := by
    rw [perform_dance_move, if_neg (by simp), if_pos (by norm_num [max_queue_size]),
      if_pos (by norm_num [min_command_interval])]
    rfl
  constructor
  · simp only [runDrone, applyOp, h0, h1, h2, h3, h4, h5]
  · norm_num [min_command_interval]

/-! ### Simulated height invariant (C10) -/

theorem perform_simulated_move_height (s : DroneState) (m : Move) (v : ℕ)
    (hh : 0 ≤ s.current_height) : 0 ≤ (perform_simulated_move s m v).current_height := by
  cases m <;> simp only [perform_simulated_move] <;> try exact hh
  · exact add_nonneg hh (Int.natCast_nonneg v)
  · exact le_max_left 0 _

theorem applyOp_height (s : DroneState) (op : DanceOp)
    (hh : 0 ≤ s.current_height) : 0 ≤ (applyOp s op).current_height := by
  cases op with
  | takeoffOp =>
    rw [applyOp, takeoff]
    split
    · norm_num
    · exact hh
  | landOp =>
    rw [applyOp, land]
    split
    · norm_num
    · exact hh
  | danceOp now m v outcome d =>
    simp only [applyOp, perform_dance_move]
    split
    · exact hh
    split
    · split
      · simp only [execute_next_move]
        split
        · exact hh
        split
        · exact perform_simulated_move_height _ m v hh
        · exact hh
      · exact hh
    · exact hh

theorem applyOp_sim (s : DroneState) (op : DanceOp) :
    (applyOp s op).simulation_mode = s.simulation_mode := by
  cases op with
  | takeoffOp =>
    rw [applyOp, takeoff]
    split <;> rfl
  | landOp =>
    rw [applyOp, land]
    split <;> rfl
  | danceOp now m v outcome d =>
    simp only [applyOp, perform_dance_move]
    split
    · rfl
    split
    · split
      · simp only [execute_next_move]
        split
        · rfl
        split
        · cases m <;> rfl
        · rfl
      · rfl
    · rfl

theorem runDrone_height (ops : List DanceOp) (s : DroneState)
    (hh : 0 ≤ s.current_height) : 0 ≤ (runDrone s ops).current_height := by
  induction ops generalizing s with
  | nil => exact hh
  | cons op rest ih => exact ih (applyOp s op) (applyOp_height s op hh)

theorem runDrone_sim (ops : List DanceOp) (s : DroneState) :
    (runDrone s ops).simulation_mode = s.simulation_mode := by
  induction ops generalizing s with
  | nil => rfl
  | cons op rest ih => rw [runDrone, ih, applyOp_sim]

theorem runDrone_append (l1 l2 : List DanceOp) (s : DroneState) :
    runDrone s (l1 ++ l2) = runDrone (runDrone s l1) l2 := by
  induction l1 generalizing s with
  | nil => rfl
  | cons op rest ih => rw [List.cons_append, runDrone, runDrone, ih]

/-- C10: in simulation mode, the current height never goes negative under any
sequence of takeoff, land and dance-move operations; a downward move is
clamped at 0; a takeoff as the latest operation leaves the height at 100;
and a landing as the latest operation resets it to 0. -/
theorem C10_sim_height_invariant :
    (∀ ops : List DanceOp, 0 ≤ (runDrone (droneInit true) ops).current_height) ∧
    (∀ (s : DroneState) (v : ℕ),
      (perform_simulated_move s Move.move_down v).current_height =
        max 0 (s.current_height - v)) ∧
    (∀ ops : List DanceOp,
      (runDrone (droneInit true) (ops ++ [DanceOp.takeoffOp])).current_height = 100) ∧
    (∀ ops : List DanceOp,
      (runDrone (droneInit true) (ops ++ [DanceOp.landOp])).current_height = 0) := by
  refine ⟨fun ops => runDrone_height ops _ (by norm_num [droneInit]), fun s v => rfl, ?_, ?_⟩
  · intro ops
    rw [runDrone_append]
    show (applyOp (runDrone (droneInit true) ops) DanceOp.takeoffOp).current_height = 100
    rw [applyOp, takeoff, if_pos (by rw [runDrone_sim]; rfl)]
  · intro ops
    rw [runDrone_append]
    show (applyOp (runDrone (droneInit true) ops) DanceOp.landOp).current_height = 0
    rw [applyOp, land, if_pos (by rw [runDrone_sim]; rfl)]

end DroneControl
